import Mathlib

/-!
# psusan (unix/uxpsusan.c): the orchestration shell of the bare ssh-connection server

A shallow embedding of `unix/uxpsusan.c`.

* C strings are lists of characters (the bytes before the terminating NUL).
* `unsigned` values are natural numbers below `UINT_MOD = 2^32`; `++` on an
  `unsigned` is addition modulo `UINT_MOD`.
* The process-wide statics (`verbose`, `finished`) and the two output streams
  are the fields of `Proc`; a C function with side effects is a function
  `Proc → Proc`.
* `exit(n)` inside the option loop is the outcome `Parsed.exit n out err`,
  carrying everything written to standard output and standard error.
* `argc`/`argv` are one list; `--argc > 0` is "the list of arguments not yet
  read is non-empty" and `*++argv` is its head.
-/

namespace Psusan

/-- A NUL-terminated C string: the characters before the NUL. -/
abbrev CStr := List Char

/-- The constant `appname`. -/
def appname : CStr := "psusan".toList

/-- Number of values of a C `unsigned` (32 bits). -/
def UINT_MOD : Nat := 4294967296

/-- The value `(unsigned)-1`. -/
def UINT_NEG1 : Nat := 4294967295

/-- Output of the conversion `%u`: the decimal digits of the value. -/
def fmt_u (n : Nat) : CStr := Nat.toDigits 10 n

/-! ## Process state -/

/-- The statics of the file and the two output streams. -/
structure Proc where
  /-- Value of `static bool verbose`. -/
  verbose : Bool
  /-- Value of `static bool finished`. -/
  finished : Bool
  /-- Everything written to standard output so far. -/
  out : CStr
  /-- Everything written to standard error so far. -/
  err : CStr
deriving DecidableEq, Repr

/-- State of a fresh process: both statics are zero-initialised, nothing written. -/
def Proc.init : Proc := { verbose := false, finished := false, out := [], err := [] }

/-- Write text to standard error (`fprintf(stderr, ..)`, `fputs(.., stderr)`). -/
def Proc.eput (p : Proc) (s : CStr) : Proc := { p with err := p.err ++ s }

/-- Write text to standard output. -/
def Proc.oput (p : Proc) (s : CStr) : Proc := { p with out := p.out ++ s }

/-- The function `nonfatal`, with its already formatted message. -/
def nonfatal (msg : CStr) (p : Proc) : Proc :=
  ((p.eput "ERROR: ".toList).eput msg).eput ['\n']

/-! ## Log policy -/

/-- The vtables a `LogPolicy` of this file can point to. -/
inductive LogPolicyVtable
  | server_logpolicy_vt
deriving DecidableEq, Repr

/-- The type `struct server_instance`; `logpolicy` holds only its vtable pointer. -/
structure server_instance where
  id : Nat
  logpolicy : Option LogPolicyVtable
deriving DecidableEq, Repr

/-- The function `log_to_stderr`. -/
def log_to_stderr (id : Nat) (msg : CStr) (p : Proc) : Proc :=
  let p1 := if id ≠ UINT_NEG1 then p.eput ("#".toList ++ fmt_u id ++ ": ".toList) else p
  let p2 := p1.eput msg
  p2.eput ['\n']

/-- The function `server_eventlog`; `inst` is the instance containing the policy. -/
def server_eventlog (inst : server_instance) (event : CStr) (p : Proc) : Proc :=
  if p.verbose then log_to_stderr inst.id event p else p

/-- The function `server_logging_error`. -/
def server_logging_error (inst : server_instance) (event : CStr) (p : Proc) : Proc :=
  log_to_stderr inst.id event p

/-- The function `server_askappend`: always 2. -/
def server_askappend : Int := 2

/-- The function `fputs(s, fp)` for the two streams of the file: `fp` is
standard error when `toErr` is true and standard output otherwise. -/
def fputs (str : CStr) (toErr : Bool) (p : Proc) : Proc :=
  if toErr then p.eput str else p.oput str

/-- The function `show_help`: one `fputs` of the usage text to the stream `fp`. -/
def show_help (toErr : Bool) (p : Proc) : Proc :=
  fputs
    ("usage:   psusan [options]\n" ++
     "options: --sessiondir DIR     cwd for session subprocess (default $HOME)\n" ++
     "         --sshlog FILE        write ssh-connection packet log to FILE\n" ++
     "         --sshrawlog FILE     write packets and raw data log to FILE\n" ++
     "also:    psusan --help        show this text\n" ++
     "         psusan --version     show version information\n").toList
    toErr p

/-- The function `server_instance_terminated`: sets `finished`; the instance is freed. -/
def server_instance_terminated (_inst : server_instance) (p : Proc) : Proc :=
  { p with finished := true }

/-- The function `psusan_continue`. -/
def psusan_continue (_ctx : Nat) (_fd _cb : Bool) (p : Proc) : Bool :=
  !p.finished

/-! ## Configuration -/

/-- Modelled from the spec: the log-type setting of `putty.h` (not in this file).
Only the two values `main` stores are named: packet-level logging and raw-byte
logging; every other value is `other`. -/
inductive LogType
  | LGTYP_PACKETS
  | LGTYP_SSHRAW
  | other (n : Nat)
deriving DecidableEq, Repr

/-- Modelled from the spec: the log-conflict setting of `putty.h` (not in this
file). `LGXF_OVR` is "overwrite an existing file". -/
inductive LogXfovr
  | LGXF_OVR
  | other (n : Nat)
deriving DecidableEq, Repr

/-- Modelled from the spec: the settings of a `Conf` that `main` writes
(`CONF_logfilename`, `CONF_logtype`, `CONF_logxfovr`). -/
structure Conf where
  logfilename : CStr
  logtype : LogType
  logxfovr : LogXfovr
deriving DecidableEq, Repr

/-- Modelled from the spec: the fields of `SshServerConfig` that `main` writes;
`session_starting_dir` is a `char *` that may be `NULL`. -/
structure SshServerConfig where
  session_starting_dir : Option CStr
  bare_connection : Bool
deriving DecidableEq, Repr

/-- What `main` reads from outside the file. -/
structure Env where
  /-- Result of `getenv("HOME")`; `none` is `NULL`. -/
  HOME : Option CStr
  /-- The string `ver`. -/
  ver : CStr
  /-- Result of `buildinfo("\n")`. -/
  buildinfo_text : CStr
  /-- Result of `make_ssh_server_conf()`. -/
  conf0 : Conf
deriving DecidableEq, Repr

/-- What `show_version_and_exit` prints: `"%s: %s\n%s\n"`. -/
def version_text (env : Env) : CStr :=
  appname ++ ": ".toList ++ env.ver ++ ['\n'] ++ env.buildinfo_text ++ ['\n']

/-! ## Option parsing -/

/-- Result of a call of `longoptarg`. -/
inductive LongOptArg
  /-- Returned `false`. -/
  | ret_false
  /-- Returned `true` with `*val = val`, having advanced `argv` by `adv` (0 or 1). -/
  | ret_true (val : CStr) (adv : Nat)
  /-- Wrote `err` to standard error and called `exit(1)`. -/
  | exit1 (err : CStr)
deriving DecidableEq, Repr

/-- The function `longoptarg`. `rest` is the arguments after `arg`, so
`--*argcp > 0` holds exactly when `rest` is non-empty, and `*++*argvp` is its
head. `memcmp(arg, expected, len)` is zero exactly when `expected` is a prefix
of `arg`; `arg[len]` is the character after that prefix, NUL when there is
none. -/
def longoptarg (arg expected : CStr) (rest : List CStr) : LongOptArg :=
  if !expected.isPrefixOf arg then .ret_false
  else
    match arg.drop expected.length with
    | '=' :: val => .ret_true val 0
    | [] =>
      match rest with
      | val :: _ => .ret_true val 1
      | [] => .exit1 (appname ++ ": option ".toList ++ expected ++
                " expects an argument\n".toList)
    | _ :: _ => .ret_false

/-- Result of a call of `longoptnoarg`. -/
inductive LongOptNoArg
  /-- Returned this value. -/
  | ret (b : Bool)
  /-- Wrote `err` to standard error and called `exit(1)`. -/
  | exit1 (err : CStr)
deriving DecidableEq, Repr

/-- The function `longoptnoarg`. -/
def longoptnoarg (arg expected : CStr) : LongOptNoArg :=
  if !expected.isPrefixOf arg then .ret false
  else
    match arg.drop expected.length with
    | '=' :: _ => .exit1 (appname ++ ": option ".toList ++ expected ++
                    " expects no argument\n".toList)
    | [] => .ret true
    | _ :: _ => .ret false

/-- The expression `longoptarg(arg, e1, ..) || longoptarg(arg, e2, ..)`: the
second call is made only when the first returns `false`. -/
def longoptarg_or (arg e1 e2 : CStr) (rest : List CStr) : LongOptArg :=
  match longoptarg arg e1 rest with
  | .ret_false => longoptarg arg e2 rest
  | r => r

/-- Outcome of one pass through the body of the `while` loop of `main`. -/
inductive Step
  /-- The process ended with `exit(status)`, having written `out` and `err`. -/
  | exit (status : Nat) (out err : CStr)
  /-- The body completed; `argv` was advanced by a further `adv` arguments. -/
  | next (adv : Nat) (conf : Conf) (ssc : SshServerConfig)
deriving DecidableEq, Repr

/-- The `logfile` branch of the loop body: three `conf_set_*` calls. -/
def set_log (conf : Conf) (val : CStr) (t : LogType) : Conf :=
  { conf with logfilename := val, logtype := t, logxfovr := .LGXF_OVR }

/-- The body of the `while` loop of `main` for the argument `arg`, followed by
the arguments `rest`. -/
def option_step (env : Env) (arg : CStr) (rest : List CStr) (conf : Conf)
    (ssc : SshServerConfig) : Step :=
  match longoptnoarg arg "--help".toList with
  | .exit1 e => .exit 1 [] e
  | .ret true =>
    let p := show_help false Proc.init
    .exit 0 p.out p.err
  | .ret false =>
  match longoptnoarg arg "--version".toList with
  | .exit1 e => .exit 1 [] e
  | .ret true => .exit 0 (version_text env) []
  | .ret false =>
  match longoptarg arg "--sessiondir".toList rest with
  | .exit1 e => .exit 1 [] e
  | .ret_true val adv => .next adv conf { ssc with session_starting_dir := some val }
  | .ret_false =>
  match longoptarg_or arg "--sshlog".toList "-sshlog".toList rest with
  | .exit1 e => .exit 1 [] e
  | .ret_true val adv => .next adv (set_log conf val .LGTYP_PACKETS) ssc
  | .ret_false =>
  match longoptarg_or arg "--sshrawlog".toList "-sshrawlog".toList rest with
  | .exit1 e => .exit 1 [] e
  | .ret_true val adv => .next adv (set_log conf val .LGTYP_SSHRAW) ssc
  | .ret_false =>
    .exit 1 [] (appname ++ ": unrecognised option ".toList ++ [Char.ofNat 39] ++ arg ++
      [Char.ofNat 39, '\n'])

/-- Outcome of the option loop of `main`. -/
inductive Parsed
  /-- The process ended with `exit(status)`, having written `out` and `err`. -/
  | exit (status : Nat) (out err : CStr)
  /-- The loop ran to its end with these settings. -/
  | run (conf : Conf) (ssc : SshServerConfig)
deriving DecidableEq, Repr

/-- The `while (--argc > 0)` loop of `main`, over the arguments not yet read. -/
def option_loop (env : Env) : List CStr → Conf → SshServerConfig → Parsed
  | [], conf, ssc => .run conf ssc
  | arg :: rest, conf, ssc =>
    match option_step env arg rest conf ssc with
    | .exit status out err => .exit status out err
    | .next adv conf1 ssc1 => option_loop env (rest.drop adv) conf1 ssc1
termination_by args => args.length
decreasing_by
  simp only [List.length_drop, List.length_cons]
  omega

/-- The first part of `main`: initialisation of `conf` and `ssc`, then the
option loop over `argv[1..]`. -/
def main_options (env : Env) (argv : List CStr) : Parsed :=
  option_loop env (argv.drop 1) env.conf0
    { session_starting_dir := env.HOME, bare_connection := true }

/-! ## Connection factory -/

/-- The type `struct server_config`. -/
structure server_config where
  conf : Conf
  ssc : SshServerConfig
  next_id : Nat
deriving DecidableEq, Repr

/-- The function `server_conn_plug`: the new instance (what `*inst_out`
receives) and the configuration afterwards. `cfg->next_id++` is an increment
of an `unsigned`. -/
def server_conn_plug (cfg : server_config) : server_instance × server_config :=
  let inst : server_instance := { id := 0, logpolicy := none }
  let inst := { inst with id := cfg.next_id }
  let cfg := { cfg with next_id := (cfg.next_id + 1) % UINT_MOD }
  let inst := { inst with logpolicy := some .server_logpolicy_vt }
  (inst, cfg)

/-- Outcome of `main` up to the construction of the server instance. -/
inductive MainResult
  /-- The process ended in the option loop. -/
  | exited (status : Nat) (out err : CStr)
  /-- The option loop ended and `server_conn_plug` built `inst`, leaving `scfg`. -/
  | started (scfg : server_config) (inst : server_instance)
deriving DecidableEq, Repr

/-- The function `main` up to and including the call of `server_conn_plug`. -/
def main (env : Env) (argv : List CStr) : MainResult :=
  match main_options env argv with
  | .exit status out err => .exited status out err
  | .run conf ssc =>
    let scfg : server_config := { conf := conf, ssc := ssc, next_id := 0 }
    let r := server_conn_plug scfg
    .started r.2 r.1

/-- The server instances `main` has constructed. -/
def MainResult.instances : MainResult → List server_instance
  | .exited _ _ _ => []
  | .started _ inst => [inst]

/-- State after `n` calls of `server_conn_plug` on the configuration `cfg`. -/
def cfg_after : Nat → server_config → server_config
  | 0, cfg => cfg
  | n + 1, cfg => cfg_after n (server_conn_plug cfg).2

/-- The call of `server_conn_plug` number `n` (counting from 0) on a
configuration that starts as `cfg`. -/
def nth_plug (n : Nat) (cfg : server_config) : server_instance × server_config :=
  server_conn_plug (cfg_after n cfg)

/-! ## Authentication stubs -/

/-- Modelled from the spec: the type `AuthPolicy` of `sshserver.h`, of which the
stubs read nothing. -/
structure AuthPolicy where
  handle : Nat
deriving DecidableEq, Repr

/-- Modelled from the spec: the type `RSAKey` of `ssh.h`. -/
structure RSAKey where
  handle : Nat
deriving DecidableEq, Repr

/-- Modelled from the spec: the type `AuthKbdInt` of `sshserver.h`. -/
structure AuthKbdInt where
  handle : Nat
deriving DecidableEq, Repr

/-- The function `auth_methods`. -/
def auth_methods (_ap : AuthPolicy) : Nat := 0

/-- The function `auth_none`. -/
def auth_none (_ap : AuthPolicy) (_username : CStr) : Bool := false

/-- The function `auth_password`; the last argument is `new_password_opt`. -/
def auth_password (_ap : AuthPolicy) (_username _password : CStr)
    (_new_password_opt : Option CStr) : Int := 0

/-- The function `auth_publickey`. -/
def auth_publickey (_ap : AuthPolicy) (_username _public_blob : CStr) : Bool := false

/-- The function `auth_publickey_ssh1`; `none` is `NULL`. -/
def auth_publickey_ssh1 (_ap : AuthPolicy) (_username : CStr) (_rsa_modulus : Nat) :
    Option RSAKey := none

/-- The function `auth_kbdint_prompts`; `none` is `NULL`. -/
def auth_kbdint_prompts (_ap : AuthPolicy) (_username : CStr) : Option AuthKbdInt := none

/-- The function `auth_kbdint_responses`. -/
def auth_kbdint_responses (_ap : AuthPolicy) (_responses : List CStr) : Int := -1

/-- The function `auth_ssh1int_challenge`; `none` is `NULL`. -/
def auth_ssh1int_challenge (_ap : AuthPolicy) (_method : Nat) (_username : CStr) :
    Option CStr := none

/-- The function `auth_ssh1int_response`. -/
def auth_ssh1int_response (_ap : AuthPolicy) (_response : CStr) : Bool := false

/-- The function `auth_successful`: its return value and the process state
it leaves. -/
def auth_successful (_ap : AuthPolicy) (_username : CStr) (_method : Nat) (p : Proc) :
    Bool × Proc := (false, p)

/-! ## The operations of the file as a state machine -/

/-- State the operations of the file act on: the process statics and streams,
and the `server_config` of `main`. -/
structure Sys where
  proc : Proc
  scfg : server_config
deriving DecidableEq, Repr

/-- A call of one of the functions of the file that return to their caller.
`modalfatalbox`, `show_version_and_exit` and `main` are not calls of the machine:
the first two end the process, so nothing is evaluated after them. -/
inductive Call
  | nonfatal (msg : CStr)
  /-- One of `platform_default_s/b/i/fontspec/filename`, `x_get_default`,
  `platform_get_x_display`, `old_keyfile_warning`, `timer_change_notify`: each
  returns a value computed from its arguments only. -/
  | platform_stub
  | server_eventlog (inst : server_instance) (event : CStr)
  | server_logging_error (inst : server_instance) (event : CStr)
  | server_askappend
  | show_help (toErr : Bool)
  | server_instance_terminated (inst : server_instance)
  | psusan_continue (ctx : Nat) (fd cb : Bool)
  | server_conn_plug
  /-- One of the nine `auth_*` functions other than `auth_successful`. -/
  | auth_query
  | auth_successful (ap : AuthPolicy) (username : CStr) (method : Nat)
deriving DecidableEq, Repr

/-- Effect of one call on the state. -/
def Call.exec : Call → Sys → Sys
  | .nonfatal msg, s => { s with proc := Psusan.nonfatal msg s.proc }
  | .platform_stub, s => s
  | .server_eventlog inst ev, s => { s with proc := Psusan.server_eventlog inst ev s.proc }
  | .server_logging_error inst ev, s =>
      { s with proc := Psusan.server_logging_error inst ev s.proc }
  | .server_askappend, s => s
  | .show_help toErr, s => { s with proc := Psusan.show_help toErr s.proc }
  | .server_instance_terminated inst, s =>
      { s with proc := Psusan.server_instance_terminated inst s.proc }
  | .psusan_continue _ _ _, s => s
  | .server_conn_plug, s => { s with scfg := (Psusan.server_conn_plug s.scfg).2 }
  | .auth_query, s => s
  | .auth_successful ap u m, s => { s with proc := (Psusan.auth_successful ap u m s.proc).2 }

/-- Effect of a sequence of calls, first to last. -/
def run_calls : List Call → Sys → Sys
  | [], s => s
  | c :: cs, s => run_calls cs (c.exec s)

/-- Whether a call is the termination callback. -/
def Call.isTerminated : Call → Bool
  | .server_instance_terminated _ => true
  | _ => false

/-! ## The command line as a sequence of options

The reading of an argument list the usage text gives: a sequence of options,
each a flag with a value, written either as one argument `FLAG=VALUE` or as
the two arguments `FLAG VALUE`. -/

/-- The flags that take a value. -/
inductive ValFlag
  | sessiondir
  | sshlog2
  | sshlog1
  | sshrawlog2
  | sshrawlog1
deriving DecidableEq, Repr

/-- How a flag is written. -/
def ValFlag.text : ValFlag → CStr
  | .sessiondir => "--sessiondir".toList
  | .sshlog2 => "--sshlog".toList
  | .sshlog1 => "-sshlog".toList
  | .sshrawlog2 => "--sshrawlog".toList
  | .sshrawlog1 => "-sshrawlog".toList

/-- The log type a logging flag selects; `none` for `--sessiondir`. -/
def ValFlag.logtype : ValFlag → Option LogType
  | .sessiondir => none
  | .sshlog2 => some .LGTYP_PACKETS
  | .sshlog1 => some .LGTYP_PACKETS
  | .sshrawlog2 => some .LGTYP_SSHRAW
  | .sshrawlog1 => some .LGTYP_SSHRAW

/-- One option on the command line. -/
structure OptUse where
  flag : ValFlag
  /-- Written `FLAG=VALUE` (true) or as two arguments (false). -/
  joined : Bool
  value : CStr
deriving DecidableEq, Repr

/-- The arguments that write one option. -/
def OptUse.spell (o : OptUse) : List CStr :=
  if o.joined then [o.flag.text ++ '=' :: o.value] else [o.flag.text, o.value]

/-- The arguments that write a sequence of options. -/
def spellAll : List OptUse → List CStr
  | [] => []
  | o :: os => o.spell ++ spellAll os

/-- The last logging option of a sequence, if there is one. -/
def lastLogOption (opts : List OptUse) : Option OptUse :=
  (opts.filter fun o => o.flag.logtype.isSome).getLast?

/-- The last `--sessiondir` option of a sequence, if there is one. -/
def lastSessiondir (opts : List OptUse) : Option OptUse :=
  (opts.filter fun o => o.flag = .sessiondir).getLast?

/-- The option names of the usage text and of the option loop. -/
def known_options : List CStr :=
  ["--help".toList, "--version".toList, "--sessiondir".toList, "--sshlog".toList,
   "-sshlog".toList, "--sshrawlog".toList, "-sshrawlog".toList]

/-- The options that require an argument. -/
def value_options : List CStr :=
  ["--sessiondir".toList, "--sshlog".toList, "-sshlog".toList, "--sshrawlog".toList,
   "-sshrawlog".toList]

/-- An argument is a recognised flag when it is a known option name, alone or
followed by `=` and anything. -/
def recognised (arg : CStr) : Bool :=
  known_options.any fun e => arg == e || (e ++ ['=']).isPrefixOf arg

/-- The usage text of the program, as its users are to see it. -/
def help_text : CStr :=
  ("usage:   psusan [options]\n" ++
   "options: --sessiondir DIR     cwd for session subprocess (default $HOME)\n" ++
   "         --sshlog FILE        write ssh-connection packet log to FILE\n" ++
   "         --sshrawlog FILE     write packets and raw data log to FILE\n" ++
   "also:    psusan --help        show this text\n" ++
   "         psusan --version     show version information\n").toList

/-- The diagnostic for an unrecognised option. -/
def msg_unrecognised (arg : CStr) : CStr :=
  "psusan: unrecognised option ".toList ++ [Char.ofNat 39] ++ arg ++ [Char.ofNat 39, '\n']

/-- The diagnostic for an option without its argument. -/
def msg_expects_arg (flag : CStr) : CStr :=
  "psusan: option ".toList ++ flag ++ " expects an argument\n".toList

/-- The settings after one option. -/
def OptUse.apply (o : OptUse) (cs : Conf × SshServerConfig) : Conf × SshServerConfig :=
  match o.flag.logtype with
  | none => (cs.1, { cs.2 with session_starting_dir := some o.value })
  | some t => (set_log cs.1 o.value t, cs.2)

/-- The settings after a sequence of options. -/
def applyAll (opts : List OptUse) (cs : Conf × SshServerConfig) : Conf × SshServerConfig :=
  opts.foldl (fun acc o => o.apply acc) cs

/-- An environment for the concrete runs below: `HOME=/tmp/x`. -/
def env_tmp_x : Env :=
  { HOME := some "/tmp/x".toList, ver := "Unidentified build".toList,
    buildinfo_text := "Build platform: 64-bit Unix".toList,
    conf0 := { logfilename := [], logtype := .other 0, logxfovr := .other 0 } }

/-- The text one call of `log_to_stderr` writes. -/
def log_text (id : Nat) (msg : CStr) : CStr :=
  (if id ≠ UINT_NEG1 then "#".toList ++ fmt_u id ++ ": ".toList else []) ++ msg ++ ['\n']

/-! ## Lemmas on the option loop -/

theorem option_loop_nil (env : Env) (c : Conf) (s : SshServerConfig) :
    option_loop env [] c s = .run c s := by
  rw [option_loop]

theorem option_loop_cons (env : Env) (arg : CStr) (rest : List CStr) (c : Conf)
    (s : SshServerConfig) :
    option_loop env (arg :: rest) c s =
      match option_step env arg rest c s with
      | .exit status out err => .exit status out err
      | .next adv conf1 ssc1 => option_loop env (rest.drop adv) conf1 ssc1 := by
  rw [option_loop]

theorem step_joined (env : Env) (o : OptUse) (rest : List CStr) (c : Conf)
    (s : SshServerConfig) :
    option_step env (o.flag.text ++ '=' :: o.value) rest c s =
      .next 0 (o.apply (c, s)).1 (o.apply (c, s)).2 := by
  obtain ⟨f, j, v⟩ := o
  cases f <;> rfl

theorem step_separate (env : Env) (o : OptUse) (rest : List CStr) (c : Conf)
    (s : SshServerConfig) :
    option_step env o.flag.text (o.value :: rest) c s =
      .next 1 (o.apply (c, s)).1 (o.apply (c, s)).2 := by
  obtain ⟨f, j, v⟩ := o
  cases f <;> rfl

theorem step_missing (env : Env) (f : ValFlag) (c : Conf) (s : SshServerConfig) :
    option_step env f.text [] c s = .exit 1 [] (msg_expects_arg f.text) := by
  cases f <;> rfl

theorem step_help (env : Env) (rest : List CStr) (c : Conf) (s : SshServerConfig) :
    option_step env "--help".toList rest c s = .exit 0 help_text [] := by
  rfl

theorem longoptarg_true_inv {arg e : CStr} {rest : List CStr} {v : CStr} {adv : Nat}
    (h : longoptarg arg e rest = .ret_true v adv) :
    (arg = e ++ '=' :: v ∧ adv = 0) ∨ (arg = e ∧ adv = 1 ∧ ∃ r, rest = v :: r) := by
  unfold longoptarg at h
  by_cases hp : e.isPrefixOf arg = true
  · obtain ⟨t, rfl⟩ := List.isPrefixOf_iff_prefix.mp hp
    simp only [hp, Bool.not_true, Bool.false_eq_true, if_false, List.drop_left] at h
    split at h
    · next val =>
        simp only [LongOptArg.ret_true.injEq] at h
        obtain ⟨h1, h2⟩ := h
        subst h1; subst h2
        exact Or.inl ⟨rfl, rfl⟩
    · cases rest with
        | nil => simp at h
        | cons w r =>
          simp only [LongOptArg.ret_true.injEq] at h
          obtain ⟨h1, h2⟩ := h
          subst h1; subst h2
          exact Or.inr ⟨by simp, rfl, r, rfl⟩
    · simp at h
  · simp [hp] at h

theorem longoptarg_false {arg e : CStr} (rest : List CStr) (h1 : arg ≠ e)
    (h2 : (e ++ ['=']).isPrefixOf arg = false) : longoptarg arg e rest = .ret_false := by
  unfold longoptarg
  by_cases hp : e.isPrefixOf arg = true
  · obtain ⟨t, rfl⟩ := List.isPrefixOf_iff_prefix.mp hp
    simp only [hp, Bool.not_true, Bool.false_eq_true, if_false, List.drop_left]
    split
    · next val =>
        have : (e ++ ['=']).isPrefixOf (e ++ '=' :: val) = true := by
          rw [List.isPrefixOf_iff_prefix]
          exact ⟨val, by simp⟩
        rw [this] at h2
        cases h2
    · simp at h1
    · rfl
  · simp [hp]

theorem longoptnoarg_false {arg e : CStr} (h1 : arg ≠ e)
    (h2 : (e ++ ['=']).isPrefixOf arg = false) : longoptnoarg arg e = .ret false := by
  unfold longoptnoarg
  by_cases hp : e.isPrefixOf arg = true
  · obtain ⟨t, rfl⟩ := List.isPrefixOf_iff_prefix.mp hp
    simp only [hp, Bool.not_true, Bool.false_eq_true, if_false, List.drop_left]
    split
    · next val =>
        have : (e ++ ['=']).isPrefixOf (e ++ '=' :: val) = true := by
          rw [List.isPrefixOf_iff_prefix]
          exact ⟨val, by simp⟩
        rw [this] at h2
        cases h2
    · simp at h1
    · rfl
  · simp [hp]

theorem step_unrecognised (env : Env) {arg : CStr} (rest : List CStr) (c : Conf)
    (s : SshServerConfig) (h : recognised arg = false) :
    option_step env arg rest c s = .exit 1 [] (msg_unrecognised arg) := by
  simp only [recognised, known_options, List.any_cons, List.any_nil, Bool.or_false,
    Bool.or_eq_false_iff, beq_eq_false_iff_ne, ne_eq] at h
  obtain ⟨⟨a1, b1⟩, ⟨a2, b2⟩, ⟨a3, b3⟩, ⟨a4, b4⟩, ⟨a5, b5⟩, ⟨a6, b6⟩, ⟨a7, b7⟩⟩ := h
  simp only [option_step, longoptarg_or, longoptnoarg_false a1 b1, longoptnoarg_false a2 b2,
    longoptarg_false rest a3 b3, longoptarg_false rest a4 b4, longoptarg_false rest a5 b5,
    longoptarg_false rest a6 b6, longoptarg_false rest a7 b7]
  rfl

theorem longoptarg_or_true_inv {arg e1 e2 : CStr} {rest : List CStr} {v : CStr} {adv : Nat}
    (h : longoptarg_or arg e1 e2 rest = .ret_true v adv) :
    longoptarg arg e1 rest = .ret_true v adv ∨ longoptarg arg e2 rest = .ret_true v adv := by
  unfold longoptarg_or at h
  split at h
  · exact Or.inr h
  · exact Or.inl h

theorem spell_of_inv {arg : CStr} {rest : List CStr} {v : CStr} {adv : Nat} (f : ValFlag)
    (h : (arg = f.text ++ '=' :: v ∧ adv = 0) ∨ (arg = f.text ∧ adv = 1 ∧ ∃ r, rest = v :: r)) :
    ∃ j, arg :: rest = (OptUse.mk f j v).spell ++ rest.drop adv := by
  rcases h with ⟨h1, h2⟩ | ⟨h1, h2, r, h3⟩
  · exact ⟨true, by subst h1; subst h2; simp [OptUse.spell]⟩
  · exact ⟨false, by subst h1; subst h2; subst h3; simp [OptUse.spell]⟩

theorem step_next_inv {env : Env} {arg : CStr} {rest : List CStr} {c c1 : Conf}
    {s s1 : SshServerConfig} {adv : Nat}
    (h : option_step env arg rest c s = .next adv c1 s1) :
    ∃ o : OptUse, arg :: rest = o.spell ++ rest.drop adv ∧ (c1, s1) = o.apply (c, s) := by
  unfold option_step at h
  split at h
  · cases h
  · cases h
  · split at h
    · cases h
    · cases h
    · split at h
      · cases h
      · next val a h3 =>
          simp only [Step.next.injEq] at h
          obtain ⟨rfl, rfl, rfl⟩ := h
          obtain ⟨j, hj⟩ := spell_of_inv .sessiondir (longoptarg_true_inv h3)
          exact ⟨_, hj, rfl⟩
      · split at h
        · cases h
        · next val a h4 =>
            simp only [Step.next.injEq] at h
            obtain ⟨rfl, rfl, rfl⟩ := h
            rcases longoptarg_or_true_inv h4 with h5 | h5
            · obtain ⟨j, hj⟩ := spell_of_inv .sshlog2 (longoptarg_true_inv h5)
              exact ⟨_, hj, rfl⟩
            · obtain ⟨j, hj⟩ := spell_of_inv .sshlog1 (longoptarg_true_inv h5)
              exact ⟨_, hj, rfl⟩
        · split at h
          · cases h
          · next val a h4 =>
              simp only [Step.next.injEq] at h
              obtain ⟨rfl, rfl, rfl⟩ := h
              rcases longoptarg_or_true_inv h4 with h5 | h5
              · obtain ⟨j, hj⟩ := spell_of_inv .sshrawlog2 (longoptarg_true_inv h5)
                exact ⟨_, hj, rfl⟩
              · obtain ⟨j, hj⟩ := spell_of_inv .sshrawlog1 (longoptarg_true_inv h5)
                exact ⟨_, hj, rfl⟩
          · cases h

theorem step_spell (env : Env) (o : OptUse) (more : List CStr) (c : Conf)
    (s : SshServerConfig) :
    option_loop env (o.spell ++ more) c s =
      option_loop env more (o.apply (c, s)).1 (o.apply (c, s)).2 := by
  unfold OptUse.spell
  cases hj : o.joined
  · simp only [Bool.false_eq_true, if_false, List.cons_append, List.nil_append]
    rw [option_loop_cons, step_separate]
    rfl
  · simp only [if_true, List.cons_append, List.nil_append]
    rw [option_loop_cons, step_joined]
    rfl

theorem loop_spell (env : Env) (opts : List OptUse) (more : List CStr) :
    ∀ (c : Conf) (s : SshServerConfig),
      option_loop env (spellAll opts ++ more) c s =
        option_loop env more (applyAll opts (c, s)).1 (applyAll opts (c, s)).2 := by
  induction opts with
  | nil => intro c s; rfl
  | cons o os ih =>
    intro c s
    simp only [spellAll, List.append_assoc]
    rw [step_spell, ih]
    rfl

theorem loop_run_inv (env : Env) :
    ∀ (n : Nat) (args : List CStr) (c c1 : Conf) (s s1 : SshServerConfig),
      args.length ≤ n → option_loop env args c s = .run c1 s1 →
      ∃ opts, args = spellAll opts ∧ (c1, s1) = applyAll opts (c, s) := by
  intro n
  induction n with
  | zero =>
    intro args c c1 s s1 hn h
    have : args = [] := List.length_eq_zero.mp (Nat.le_zero.mp hn)
    subst this
    rw [option_loop_nil] at h
    simp only [Parsed.run.injEq] at h
    obtain ⟨rfl, rfl⟩ := h
    exact ⟨[], rfl, rfl⟩
  | succ n ih =>
    intro args c c1 s s1 hn h
    cases args with
    | nil =>
      rw [option_loop_nil] at h
      simp only [Parsed.run.injEq] at h
      obtain ⟨rfl, rfl⟩ := h
      exact ⟨[], rfl, rfl⟩
    | cons arg rest =>
      rw [option_loop_cons] at h
      split at h
      · cases h
      · next adv c2 s2 hstep =>
          obtain ⟨o, ho, hap⟩ := step_next_inv hstep
          have hlen : (rest.drop adv).length ≤ n := by
            simp only [List.length_drop, List.length_cons] at *
            omega
          obtain ⟨opts, hopts, hres⟩ := ih (rest.drop adv) c2 c1 s2 s1 hlen h
          refine ⟨o :: opts, ?_, ?_⟩
          · rw [ho, hopts]; rfl
          · rw [hres, hap]; rfl

theorem applyAll_snoc (os : List OptUse) (o : OptUse) (cs : Conf × SshServerConfig) :
    applyAll (os ++ [o]) cs = o.apply (applyAll os cs) := by
  simp [applyAll, List.foldl_append]

theorem lastLogOption_snoc (os : List OptUse) (o : OptUse) :
    lastLogOption (os ++ [o]) = if o.flag.logtype.isSome then some o else lastLogOption os := by
  unfold lastLogOption
  rw [List.filter_append]
  by_cases h : o.flag.logtype.isSome = true
  · simp [List.filter_cons, h]
  · simp [List.filter_cons, h]

theorem lastSessiondir_snoc (os : List OptUse) (o : OptUse) :
    lastSessiondir (os ++ [o]) = if o.flag = .sessiondir then some o else lastSessiondir os := by
  unfold lastSessiondir
  rw [List.filter_append]
  by_cases h : o.flag = .sessiondir
  · simp [List.filter_cons, h]
  · simp [List.filter_cons, h]

theorem applyAll_log (opts : List OptUse) (cs : Conf × SshServerConfig) :
    (∀ o, lastLogOption opts = some o →
      (applyAll opts cs).1.logfilename = o.value ∧
      some (applyAll opts cs).1.logtype = o.flag.logtype ∧
      (applyAll opts cs).1.logxfovr = .LGXF_OVR) ∧
    (lastLogOption opts = none → (applyAll opts cs).1 = cs.1) := by
  induction opts using List.reverseRecOn with
  | nil => exact ⟨fun o h => by simp [lastLogOption] at h, fun _ => rfl⟩
  | append_singleton os o ih =>
    rw [applyAll_snoc, lastLogOption_snoc]
    cases ht : o.flag.logtype with
    | none =>
      simp only [Option.isSome_none, Bool.false_eq_true, if_false, OptUse.apply, ht]
      exact ih
    | some t =>
      simp only [Option.isSome_some, if_true, OptUse.apply, ht, Option.some.injEq]
      refine ⟨?_, fun h => by cases h⟩
      intro o2 ho
      subst ho
      simp [set_log, ht]

theorem applyAll_dir (opts : List OptUse) (cs : Conf × SshServerConfig) :
    (∀ o, lastSessiondir opts = some o →
      (applyAll opts cs).2.session_starting_dir = some o.value) ∧
    (lastSessiondir opts = none →
      (applyAll opts cs).2.session_starting_dir = cs.2.session_starting_dir) ∧
    (applyAll opts cs).2.bare_connection = cs.2.bare_connection := by
  induction opts using List.reverseRecOn with
  | nil => exact ⟨fun o h => by simp [lastSessiondir] at h, fun _ => rfl, rfl⟩
  | append_singleton os o ih =>
    rw [applyAll_snoc, lastSessiondir_snoc]
    obtain ⟨f, j, v⟩ := o
    cases f
    · simp [OptUse.apply, ValFlag.logtype]
      exact ih.2.2
    all_goals
      simp [OptUse.apply, ValFlag.logtype]
      exact ih

theorem main_options_cons (env : Env) (prog : CStr) (args : List CStr) :
    main_options env (prog :: args) =
      option_loop env args env.conf0
        { session_starting_dir := env.HOME, bare_connection := true } := rfl

theorem main_started_inv (env : Env) (argv : List CStr) (scfg : server_config)
    (inst : server_instance) (h : main env argv = .started scfg inst) :
    main_options env argv = .run scfg.conf scfg.ssc ∧ inst.id = 0 ∧ scfg.next_id = 1 := by
  unfold main at h
  split at h
  · cases h
  · next conf ssc hrun =>
      simp only [MainResult.started.injEq] at h
      obtain ⟨rfl, rfl⟩ := h
      exact ⟨hrun, rfl, rfl⟩

theorem msg_unrecognised_names_arg (arg : CStr) : arg <:+: msg_unrecognised arg :=
  ⟨"psusan: unrecognised option ".toList ++ [Char.ofNat 39], [Char.ofNat 39, '\n'], by
    simp [msg_unrecognised]⟩

theorem msg_expects_arg_names_flag (flag : CStr) : flag <:+: msg_expects_arg flag :=
  ⟨"psusan: option ".toList, " expects an argument\n".toList, by simp [msg_expects_arg]⟩

theorem value_options_text {arg : CStr} (h : arg ∈ value_options) : ∃ f : ValFlag, arg = f.text := by
  simp only [value_options, List.mem_cons, List.mem_singleton, List.not_mem_nil, or_false] at h
  rcases h with h | h | h | h | h
  · exact ⟨.sessiondir, h⟩
  · exact ⟨.sshlog2, h⟩
  · exact ⟨.sshlog1, h⟩
  · exact ⟨.sshrawlog2, h⟩
  · exact ⟨.sshrawlog1, h⟩

/-- C1 (as amended): when the option loop reaches an argument, every earlier argument
having been parsed without ending the process, then (a) if that argument is not a
recognised flag the process exits with status 1 after writing to standard error the
non-empty message "psusan: unrecognised option 'ARG'", and (b) if that argument is one
of the flags that require a value and it is the last argument, the process exits with
status 1 after writing "psusan: option FLAG expects an argument"; both messages contain
the offending argument. -/
theorem usage_error_exits_1 (env : Env) (prog : CStr) (pre : List CStr) (conf : Conf)
    (ssc : SshServerConfig) (arg : CStr)
    (hpre : main_options env (prog :: pre) = .run conf ssc) :
    (recognised arg = false → ∀ rest,
      main_options env (prog :: (pre ++ arg :: rest)) = .exit 1 [] (msg_unrecognised arg)) ∧
    (arg ∈ value_options →
      main_options env (prog :: (pre ++ [arg])) = .exit 1 [] (msg_expects_arg arg)) ∧
    msg_unrecognised arg ≠ [] ∧ arg <:+: msg_unrecognised arg ∧
    msg_expects_arg arg ≠ [] ∧ arg <:+: msg_expects_arg arg := by
  rw [main_options_cons] at hpre
  obtain ⟨opts, rfl, -⟩ := loop_run_inv env _ _ _ _ _ _ (Nat.le_refl _) hpre
  refine ⟨?_, ?_, ?_, msg_unrecognised_names_arg arg, ?_, msg_expects_arg_names_flag arg⟩
  · intro hrec rest
    rw [main_options_cons, loop_spell, option_loop_cons, step_unrecognised env rest _ _ hrec]
  · intro hval
    obtain ⟨f, rfl⟩ := value_options_text hval
    rw [main_options_cons, loop_spell, option_loop_cons, step_missing]
  · simp [msg_unrecognised]
  · simp [msg_expects_arg]

/-- C1, witness: after `--sshlog=/tmp/l`, the argument `--bogus` and a final
`--sessiondir`. -/
theorem usage_error_exits_1_witness :
    main_options env_tmp_x ["psusan".toList, "--sshlog=/tmp/l".toList] =
      .run { logfilename := "/tmp/l".toList, logtype := .LGTYP_PACKETS, logxfovr := .LGXF_OVR }
        { session_starting_dir := some "/tmp/x".toList, bare_connection := true } ∧
    main_options env_tmp_x
      ["psusan".toList, "--sshlog=/tmp/l".toList, "--bogus".toList, "--help".toList] =
        .exit 1 [] "psusan: unrecognised option '--bogus'\n".toList ∧
    main_options env_tmp_x
      ["psusan".toList, "--sshlog=/tmp/l".toList, "--sessiondir".toList] =
        .exit 1 [] "psusan: option --sessiondir expects an argument\n".toList := by
  have hpre : main_options env_tmp_x ["psusan".toList, "--sshlog=/tmp/l".toList] =
      .run { logfilename := "/tmp/l".toList, logtype := .LGTYP_PACKETS, logxfovr := .LGXF_OVR }
        { session_starting_dir := some "/tmp/x".toList, bare_connection := true } := by
    rw [main_options_cons, option_loop_cons]
    exact option_loop_nil _ _ _
  have h1 := usage_error_exits_1 env_tmp_x "psusan".toList ["--sshlog=/tmp/l".toList] _ _
    "--bogus".toList hpre
  have h2 := usage_error_exits_1 env_tmp_x "psusan".toList ["--sshlog=/tmp/l".toList] _ _
    "--sessiondir".toList hpre
  exact ⟨hpre, h1.1 (by decide) ["--help".toList], h2.2.1 (by decide)⟩

/-- C1, counterexample: the argument list `--help --bogus` contains the unrecognised
flag `--bogus`, yet the process exits with status 0 and writes nothing to standard
error. -/
theorem usage_error_counterexample :
    "--bogus".toList ∈ ["--help".toList, "--bogus".toList] ∧
    recognised "--bogus".toList = false ∧
    main_options env_tmp_x ["psusan".toList, "--help".toList, "--bogus".toList] =
      .exit 0 help_text [] := by
  refine ⟨by decide, by decide, ?_⟩
  rw [main_options_cons, option_loop_cons, step_help]

/-- C2: whenever `main` gets through its option loop, the arguments are a sequence of
value-taking options, and if that sequence has a logging option (`--sshlog`, `-sshlog`,
`--sshrawlog`, `-sshrawlog`) then in the configuration handed on the log file name is the
value of the last one, the log type is packet logging when the last one is `(-)-sshlog`
and raw logging when it is `(-)-sshrawlog`, and the log-conflict setting is overwrite. -/
theorem last_log_option_wins (env : Env) (argv : List CStr) (scfg : server_config)
    (inst : server_instance) (h : main env argv = .started scfg inst) :
    (∃ opts, argv.drop 1 = spellAll opts) ∧
    ∀ opts o, argv.drop 1 = spellAll opts → lastLogOption opts = some o →
      scfg.conf.logfilename = o.value ∧
      some scfg.conf.logtype = o.flag.logtype ∧
      (o.flag = .sshlog2 ∨ o.flag = .sshlog1 → scfg.conf.logtype = .LGTYP_PACKETS) ∧
      (o.flag = .sshrawlog2 ∨ o.flag = .sshrawlog1 → scfg.conf.logtype = .LGTYP_SSHRAW) ∧
      scfg.conf.logxfovr = .LGXF_OVR := by
  have hrun := (main_started_inv env argv scfg inst h).1
  unfold main_options at hrun
  constructor
  · obtain ⟨opts, ho, -⟩ := loop_run_inv env _ _ _ _ _ _ (Nat.le_refl _) hrun
    exact ⟨opts, ho⟩
  · intro opts o hsp hlast
    rw [hsp] at hrun
    have hl := loop_spell env opts [] env.conf0
      { session_starting_dir := env.HOME, bare_connection := true }
    rw [List.append_nil, hrun, option_loop_nil] at hl
    simp only [Parsed.run.injEq] at hl
    obtain ⟨h1, h2, h3⟩ := (applyAll_log opts _).1 o hlast
    rw [← hl.1] at h1 h2 h3
    refine ⟨h1, h2, ?_, ?_, h3⟩
    · intro hf
      rcases hf with hf | hf <;> rw [hf] at h2 <;> exact Option.some.inj h2
    · intro hf
      rcases hf with hf | hf <;> rw [hf] at h2 <;> exact Option.some.inj h2

/-- C2, witness: `--sshlog /tmp/a -sshrawlog=/tmp/b` ends with raw logging to `/tmp/b`. -/
theorem last_log_option_wins_witness :
    main env_tmp_x ["psusan".toList, "--sshlog".toList, "/tmp/a".toList,
        "-sshrawlog=/tmp/b".toList] =
      .started
        { conf := { logfilename := "/tmp/b".toList, logtype := .LGTYP_SSHRAW,
                    logxfovr := .LGXF_OVR },
          ssc := { session_starting_dir := some "/tmp/x".toList, bare_connection := true },
          next_id := 1 }
        { id := 0, logpolicy := some .server_logpolicy_vt } ∧
    ("/tmp/b".toList = "/tmp/b".toList ∧
      some LogType.LGTYP_SSHRAW = ValFlag.sshrawlog1.logtype ∧
      (ValFlag.sshrawlog1 = .sshlog2 ∨ ValFlag.sshrawlog1 = .sshlog1 →
        LogType.LGTYP_SSHRAW = .LGTYP_PACKETS) ∧
      (ValFlag.sshrawlog1 = .sshrawlog2 ∨ ValFlag.sshrawlog1 = .sshrawlog1 →
        LogType.LGTYP_SSHRAW = .LGTYP_SSHRAW) ∧
      LogXfovr.LGXF_OVR = .LGXF_OVR) := by
  have hm : main env_tmp_x ["psusan".toList, "--sshlog".toList, "/tmp/a".toList,
        "-sshrawlog=/tmp/b".toList] =
      .started
        { conf := { logfilename := "/tmp/b".toList, logtype := .LGTYP_SSHRAW,
                    logxfovr := .LGXF_OVR },
          ssc := { session_starting_dir := some "/tmp/x".toList, bare_connection := true },
          next_id := 1 }
        { id := 0, logpolicy := some .server_logpolicy_vt } := by
    unfold main
    rw [main_options_cons, option_loop_cons]
    show (match option_loop env_tmp_x ["-sshrawlog=/tmp/b".toList] _ _ with
      | .exit status out err => MainResult.exited status out err
      | .run conf ssc => _) = _
    rw [option_loop_cons]
    show (match option_loop env_tmp_x [] _ _ with
      | .exit status out err => MainResult.exited status out err
      | .run conf ssc => _) = _
    rw [option_loop_nil]
    rfl
  exact ⟨hm, (last_log_option_wins _ _ _ _ hm).2
    [⟨.sshlog2, false, "/tmp/a".toList⟩, ⟨.sshrawlog1, true, "/tmp/b".toList⟩]
    ⟨.sshrawlog1, true, "/tmp/b".toList⟩ (by decide) (by decide)⟩

theorem main_of_spell (env : Env) (prog : CStr) (opts : List OptUse) :
    main env (prog :: spellAll opts) =
      .started
        { conf := (applyAll opts (env.conf0, ⟨env.HOME, true⟩)).1,
          ssc := (applyAll opts (env.conf0, ⟨env.HOME, true⟩)).2,
          next_id := 1 }
        { id := 0, logpolicy := some .server_logpolicy_vt } := by
  have hl := loop_spell env opts [] env.conf0 ⟨env.HOME, true⟩
  rw [List.append_nil, option_loop_nil] at hl
  unfold main
  rw [main_options_cons, hl]
  rfl

/-- C7: whenever `main` gets through its option loop, the session-starting directory in
the configuration handed to the engine is the value of the last `--sessiondir` option,
and the value of `HOME` when there is no `--sessiondir` option. With no flags and
`HOME=/tmp/x` it is `/tmp/x`; with `--sessiondir /a/b --sshlog /tmp/log.bin` it is `/a/b`,
with packet logging to `/tmp/log.bin` and overwrite on conflict. -/
theorem session_dir_selected :
    (∀ (env : Env) (argv : List CStr) (scfg : server_config) (inst : server_instance),
      main env argv = .started scfg inst →
      (∃ opts, argv.drop 1 = spellAll opts) ∧
      ∀ opts, argv.drop 1 = spellAll opts →
        (∀ o, lastSessiondir opts = some o → scfg.ssc.session_starting_dir = some o.value) ∧
        (lastSessiondir opts = none → scfg.ssc.session_starting_dir = env.HOME)) ∧
    (∀ (env : Env) (prog : CStr), env.HOME = some "/tmp/x".toList →
      ∃ scfg inst, main env [prog] = .started scfg inst ∧
        scfg.ssc.session_starting_dir = some "/tmp/x".toList) ∧
    (∀ (env : Env) (prog : CStr),
      ∃ scfg inst,
        main env [prog, "--sessiondir".toList, "/a/b".toList, "--sshlog".toList,
          "/tmp/log.bin".toList] = .started scfg inst ∧
        scfg.ssc.session_starting_dir = some "/a/b".toList ∧
        scfg.conf.logfilename = "/tmp/log.bin".toList ∧
        scfg.conf.logtype = .LGTYP_PACKETS ∧
        scfg.conf.logxfovr = .LGXF_OVR) := by
  refine ⟨?_, ?_, ?_⟩
  · intro env argv scfg inst h
    have hrun := (main_started_inv env argv scfg inst h).1
    unfold main_options at hrun
    constructor
    · obtain ⟨opts, ho, -⟩ := loop_run_inv env _ _ _ _ _ _ (Nat.le_refl _) hrun
      exact ⟨opts, ho⟩
    · intro opts hsp
      rw [hsp] at hrun
      have hl := loop_spell env opts [] env.conf0
        { session_starting_dir := env.HOME, bare_connection := true }
      rw [List.append_nil, hrun, option_loop_nil] at hl
      simp only [Parsed.run.injEq] at hl
      obtain ⟨h1, h2, -⟩ := applyAll_dir opts (env.conf0, ⟨env.HOME, true⟩)
      rw [← hl.2] at h1 h2
      exact ⟨h1, h2⟩
  · intro env prog hhome
    refine ⟨_, _, main_of_spell env prog [], ?_⟩
    exact hhome
  · intro env prog
    exact ⟨_, _, main_of_spell env prog
      [⟨.sessiondir, false, "/a/b".toList⟩, ⟨.sshlog2, false, "/tmp/log.bin".toList⟩],
      rfl, rfl, rfl, rfl⟩

/-- C7, witness: `--sessiondir=/a --sessiondir /b` starts in `/b`; no flags starts in
`HOME`. -/
theorem session_dir_selected_witness :
    (∃ scfg inst,
      main env_tmp_x ["psusan".toList, "--sessiondir=/a".toList, "--sessiondir".toList,
        "/b".toList] = .started scfg inst ∧
      scfg.ssc.session_starting_dir = some "/b".toList) ∧
    (∃ scfg inst, main env_tmp_x ["psusan".toList] = .started scfg inst ∧
      scfg.ssc.session_starting_dir = some "/tmp/x".toList) := by
  have hm := main_of_spell env_tmp_x "psusan".toList
    [⟨.sessiondir, true, "/a".toList⟩, ⟨.sessiondir, false, "/b".toList⟩]
  refine ⟨⟨_, _, hm, ?_⟩, ?_⟩
  · exact ((session_dir_selected.1 env_tmp_x _ _ _ hm).2
      [⟨.sessiondir, true, "/a".toList⟩, ⟨.sessiondir, false, "/b".toList⟩] rfl).1
      ⟨.sessiondir, false, "/b".toList⟩ (by decide)
  · exact session_dir_selected.2.1 env_tmp_x "psusan".toList rfl

set_option maxRecDepth 8192 in
theorem help_text_length : help_text.length = 338 := rfl

/-- C8: when the option loop reaches the argument `--help`, every earlier argument
having been parsed without ending the process, `main` exits with status 0 having written
to standard output exactly the six-line usage text (what `show_help` writes to that
stream, a non-empty text) and nothing to standard error; no server instance has been
constructed, `server_conn_plug` not having been called. -/
theorem help_exits_0 (env : Env) (prog : CStr) (pre rest : List CStr) (conf : Conf)
    (ssc : SshServerConfig) (hpre : main_options env (prog :: pre) = .run conf ssc) :
    main env (prog :: (pre ++ "--help".toList :: rest)) =
      .exited 0
        ("usage:   psusan [options]\n" ++
        "options: --sessiondir DIR     cwd for session subprocess (default $HOME)\n" ++
        "         --sshlog FILE        write ssh-connection packet log to FILE\n" ++
        "         --sshrawlog FILE     write packets and raw data log to FILE\n" ++
        "also:    psusan --help        show this text\n" ++
        "         psusan --version     show version information\n").toList
        [] ∧
    (∃ out, main env (prog :: (pre ++ "--help".toList :: rest)) = .exited 0 out [] ∧
      out ≠ [] ∧ out.length = 338 ∧
      (∀ p : Proc, (show_help false p).out = p.out ++ out ∧ (show_help false p).err = p.err)) ∧
    (main env (prog :: (pre ++ "--help".toList :: rest))).instances = [] ∧
    ∀ scfg inst, main env (prog :: (pre ++ "--help".toList :: rest)) ≠ .started scfg inst := by
  rw [main_options_cons] at hpre
  obtain ⟨opts, rfl, -⟩ := loop_run_inv env _ _ _ _ _ _ (Nat.le_refl _) hpre
  have hm : main env (prog :: (spellAll opts ++ "--help".toList :: rest)) =
      .exited 0 help_text [] := by
    unfold main
    rw [main_options_cons, loop_spell, option_loop_cons, step_help]
  rw [hm]
  have hlen : help_text.length = 338 := help_text_length
  have hne : help_text ≠ [] := by
    intro h
    rw [h] at hlen
    cases hlen
  exact ⟨rfl, ⟨help_text, rfl, hne, hlen, fun p => ⟨rfl, rfl⟩⟩, rfl,
    fun _ _ hc => by cases hc⟩

/-- C8, witness: `--sessiondir /a/b --help --sshlog`. -/
theorem help_exits_0_witness :
    main env_tmp_x ["psusan".toList, "--sessiondir".toList, "/a/b".toList, "--help".toList,
      "--sshlog".toList] =
      .exited 0
        ("usage:   psusan [options]\n" ++
        "options: --sessiondir DIR     cwd for session subprocess (default $HOME)\n" ++
        "         --sshlog FILE        write ssh-connection packet log to FILE\n" ++
        "         --sshrawlog FILE     write packets and raw data log to FILE\n" ++
        "also:    psusan --help        show this text\n" ++
        "         psusan --version     show version information\n").toList
        [] := by
  have hpre : main_options env_tmp_x ["psusan".toList, "--sessiondir".toList, "/a/b".toList] =
      .run env_tmp_x.conf0 ⟨some "/a/b".toList, true⟩ := by
    rw [main_options_cons, option_loop_cons]
    exact option_loop_nil _ _ _
  exact (help_exits_0 env_tmp_x "psusan".toList ["--sessiondir".toList, "/a/b".toList]
    ["--sshlog".toList] _ _ hpre).1

/-! ## Lemmas on the id counter -/

theorem cfg_after_next_id (n : Nat) :
    ∀ cfg : server_config, cfg.next_id < UINT_MOD →
      (cfg_after n cfg).next_id = (cfg.next_id + n) % UINT_MOD := by
  induction n with
  | zero => intro cfg h; simp [cfg_after, Nat.mod_eq_of_lt h]
  | succ n ih =>
    intro cfg h
    have hlt : (server_conn_plug cfg).2.next_id < UINT_MOD :=
      Nat.mod_lt _ (by decide)
    rw [cfg_after, ih _ hlt]
    simp only [server_conn_plug]
    rw [Nat.mod_add_mod]
    congr 1
    omega

theorem nth_plug_id (n : Nat) (cfg : server_config) (h : cfg.next_id < UINT_MOD) :
    (nth_plug n cfg).1.id = (cfg.next_id + n) % UINT_MOD ∧
    (nth_plug n cfg).2.next_id = (cfg.next_id + n + 1) % UINT_MOD := by
  unfold nth_plug
  simp only [server_conn_plug]
  rw [cfg_after_next_id n cfg h, Nat.mod_add_mod]
  exact ⟨rfl, rfl⟩

/-- C3 (as amended): starting from a `server_config` whose `next_id` is 0, call number
`n` of `server_conn_plug` (counting from 0) gives the new instance the id `n mod 2^32`
and leaves `next_id` equal to `(n+1) mod 2^32`; so for `n + 1 < 2^32` the id is `n` and
`next_id` becomes `n + 1`. -/
theorem ids_count_up (cfg : server_config) (n : Nat) (h0 : cfg.next_id = 0) :
    (nth_plug n cfg).1.id = n % UINT_MOD ∧
    (nth_plug n cfg).2.next_id = (n + 1) % UINT_MOD ∧
    (n + 1 < UINT_MOD → (nth_plug n cfg).1.id = n ∧ (nth_plug n cfg).2.next_id = n + 1) := by
  obtain ⟨h1, h2⟩ := nth_plug_id n cfg (by rw [h0]; decide)
  rw [h0, Nat.zero_add] at h1 h2
  refine ⟨h1, h2, fun hn => ?_⟩
  rw [h1, h2, Nat.mod_eq_of_lt hn, Nat.mod_eq_of_lt (by omega)]
  exact ⟨rfl, rfl⟩

/-- C3, witness: calls 0 to 2 on the configuration `main` builds. -/
theorem ids_count_up_witness :
    ((nth_plug 0 ⟨env_tmp_x.conf0, ⟨none, true⟩, 0⟩).1.id = 0 ∧
      (nth_plug 0 ⟨env_tmp_x.conf0, ⟨none, true⟩, 0⟩).2.next_id = 1) ∧
    ((nth_plug 2 ⟨env_tmp_x.conf0, ⟨none, true⟩, 0⟩).1.id = 2 ∧
      (nth_plug 2 ⟨env_tmp_x.conf0, ⟨none, true⟩, 0⟩).2.next_id = 3) :=
  ⟨(ids_count_up ⟨env_tmp_x.conf0, ⟨none, true⟩, 0⟩ 0 rfl).2.2 (by decide),
   (ids_count_up ⟨env_tmp_x.conf0, ⟨none, true⟩, 0⟩ 2 rfl).2.2 (by decide)⟩

/-- C3, counterexample: starting from `next_id = 0`, call number `2^32 - 1` leaves
`next_id` equal to 0, not `2^32`, and call number `2^32` gives the id 0, not `2^32`. -/
theorem ids_count_up_counterexample :
    (nth_plug 4294967295 ⟨env_tmp_x.conf0, ⟨none, true⟩, 0⟩).2.next_id = 0 ∧
    (nth_plug 4294967295 ⟨env_tmp_x.conf0, ⟨none, true⟩, 0⟩).2.next_id ≠ 4294967295 + 1 ∧
    (nth_plug 4294967296 ⟨env_tmp_x.conf0, ⟨none, true⟩, 0⟩).1.id = 0 ∧
    (nth_plug 4294967296 ⟨env_tmp_x.conf0, ⟨none, true⟩, 0⟩).1.id ≠ 4294967296 := by
  have h1 := (nth_plug_id 4294967295 ⟨env_tmp_x.conf0, ⟨none, true⟩, 0⟩ (by decide)).2
  have h2 := (nth_plug_id 4294967296 ⟨env_tmp_x.conf0, ⟨none, true⟩, 0⟩ (by decide)).1
  have e1 : (0 + 4294967295 + 1) % UINT_MOD = 0 := by decide
  have e2 : (0 + 4294967296) % UINT_MOD = 0 := by decide
  rw [e1] at h1
  rw [e2] at h2
  rw [h1, h2]
  exact ⟨rfl, by decide, rfl, by decide⟩

/-- C9 (as amended): on one `server_config` whose counter holds an `unsigned` value,
two calls of `server_conn_plug` get the same id exactly when their positions in the
sequence of calls differ by a multiple of `2^32`; so two distinct calls fewer than
`2^32` calls apart get distinct ids. -/
theorem ids_distinct_within_period (cfg : server_config) (i j : Nat)
    (h : cfg.next_id < UINT_MOD) :
    ((nth_plug i cfg).1.id = (nth_plug j cfg).1.id ↔ i % UINT_MOD = j % UINT_MOD) ∧
    (i < j → j < i + UINT_MOD → (nth_plug i cfg).1.id ≠ (nth_plug j cfg).1.id) := by
  have key : (nth_plug i cfg).1.id = (nth_plug j cfg).1.id ↔ i % UINT_MOD = j % UINT_MOD := by
    rw [(nth_plug_id i cfg h).1, (nth_plug_id j cfg h).1]
    constructor
    · intro e
      have : cfg.next_id + i ≡ cfg.next_id + j [MOD UINT_MOD] := e
      exact Nat.ModEq.add_left_cancel' _ this
    · intro e
      have : i ≡ j [MOD UINT_MOD] := e
      exact Nat.ModEq.add_left _ this
  refine ⟨key, fun hij hji hid => ?_⟩
  have e := key.mp hid
  have hm : UINT_MOD = 4294967296 := rfl
  rw [hm] at e hji
  omega

/-- C9, witness: calls 1 and 5 from `next_id = 7` get distinct ids. -/
theorem ids_distinct_within_period_witness :
    (nth_plug 1 ⟨env_tmp_x.conf0, ⟨none, true⟩, 7⟩).1.id ≠
      (nth_plug 5 ⟨env_tmp_x.conf0, ⟨none, true⟩, 7⟩).1.id :=
  (ids_distinct_within_period ⟨env_tmp_x.conf0, ⟨none, true⟩, 7⟩ 1 5 (by decide)).2
    (by decide) (by decide)

/-- C9, counterexample: from `next_id = 0`, the distinct calls number 0 and number
`2^32` both assign the id 0. -/
theorem ids_reused_counterexample :
    (0 : Nat) ≠ 4294967296 ∧
    (nth_plug 0 ⟨env_tmp_x.conf0, ⟨none, true⟩, 0⟩).1.id = 0 ∧
    (nth_plug 4294967296 ⟨env_tmp_x.conf0, ⟨none, true⟩, 0⟩).1.id = 0 := by
  have h2 := (nth_plug_id 4294967296 ⟨env_tmp_x.conf0, ⟨none, true⟩, 0⟩ (by decide)).1
  have e2 : (0 + 4294967296) % UINT_MOD = 0 := by decide
  rw [e2] at h2
  exact ⟨by decide, rfl, h2⟩

/-! ## Lemmas on logging and the completion flag -/

theorem log_to_stderr_eq (id : Nat) (msg : CStr) (p : Proc) :
    log_to_stderr id msg p = { p with err := p.err ++ log_text id msg } := by
  unfold log_to_stderr log_text Proc.eput
  by_cases h : id = UINT_NEG1 <;> simp [h]

theorem log_text_ne_nil (id : Nat) (msg : CStr) : log_text id msg ≠ [] := by
  simp [log_text]

theorem fputs_finished (str : CStr) (toErr : Bool) (p : Proc) :
    (fputs str toErr p).finished = p.finished := by
  cases toErr <;> rfl

theorem show_help_finished (toErr : Bool) (p : Proc) :
    (show_help toErr p).finished = p.finished :=
  fputs_finished _ toErr p

theorem exec_finished (c : Call) (s : Sys) :
    (c.exec s).proc.finished = (c.isTerminated || s.proc.finished) := by
  cases c <;>
    simp [Call.exec, Call.isTerminated, nonfatal, Proc.eput, Proc.oput, server_eventlog,
      server_logging_error, log_to_stderr_eq, show_help_finished, server_instance_terminated,
      auth_successful]
  all_goals split <;> rfl

theorem run_calls_finished (cs : List Call) :
    ∀ s : Sys, (run_calls cs s).proc.finished =
      (cs.any Call.isTerminated || s.proc.finished) := by
  induction cs with
  | nil => intro s; simp [run_calls]
  | cons c cs ih =>
    intro s
    rw [run_calls, ih, exec_finished]
    simp [Bool.or_assoc, Bool.or_comm, Bool.or_left_comm]

/-- C4: for every instance, event string and process state, `server_logging_error`
appends a non-empty text to standard error, the same text whatever the value of
`verbose`; `server_eventlog` appends that text when `verbose` is true and leaves the
process state untouched when it is false, so it writes if and only if `verbose` is
true. -/
theorem logging_error_unconditional_eventlog_gated (inst : server_instance) (event : CStr)
    (p : Proc) :
    (server_logging_error inst event p).err = p.err ++ log_text inst.id event ∧
    log_text inst.id event ≠ [] ∧
    (∀ b, (server_logging_error inst event { p with verbose := b }).err =
      (server_logging_error inst event p).err) ∧
    ((server_eventlog inst event p).err ≠ p.err ↔ p.verbose = true) ∧
    (p.verbose = true →
      (server_eventlog inst event p).err = p.err ++ log_text inst.id event) ∧
    (p.verbose = false → server_eventlog inst event p = p) := by
  refine ⟨?_, log_text_ne_nil _ _, ?_, ?_, ?_, ?_⟩
  · simp [server_logging_error, log_to_stderr_eq]
  · intro b
    simp [server_logging_error, log_to_stderr_eq]
  · cases hv : p.verbose
    · simp [server_eventlog, hv]
    · simp [server_eventlog, hv, log_to_stderr_eq, log_text_ne_nil]
  · intro hv
    simp [server_eventlog, hv, log_to_stderr_eq]
  · intro hv
    simp [server_eventlog, hv]

/-- C4, witness: with `verbose` true the event `hi` of instance 0 reaches standard
error; with `verbose` false nothing is written. -/
theorem logging_error_unconditional_eventlog_gated_witness :
    (server_eventlog ⟨0, some .server_logpolicy_vt⟩ "hi".toList
      { verbose := true, finished := false, out := [], err := [] }).err = "#0: hi\n".toList ∧
    server_eventlog ⟨0, some .server_logpolicy_vt⟩ "hi".toList Proc.init = Proc.init :=
  ⟨(logging_error_unconditional_eventlog_gated ⟨0, some .server_logpolicy_vt⟩ "hi".toList
      { verbose := true, finished := false, out := [], err := [] }).2.2.2.2.1 rfl,
   (logging_error_unconditional_eventlog_gated ⟨0, some .server_logpolicy_vt⟩ "hi".toList
      Proc.init).2.2.2.2.2 rfl⟩

/-- C5: after `server_instance_terminated` has run, `psusan_continue` returns false for
every value of its arguments and after every further sequence of calls of the functions
of the file; in a process where `finished` is false (as it is at start) and the
termination callback has not run, `psusan_continue` returns true. -/
theorem continue_false_after_termination :
    (∀ (s : Sys) (inst : server_instance) (before after : List Call) (ctx : Nat)
        (fd cb : Bool),
      psusan_continue ctx fd cb
        (run_calls (before ++ Call.server_instance_terminated inst :: after) s).proc = false) ∧
    (∀ (s : Sys) (calls : List Call) (ctx : Nat) (fd cb : Bool),
      s.proc.finished = false → (∀ c ∈ calls, c.isTerminated = false) →
      psusan_continue ctx fd cb (run_calls calls s).proc = true) ∧
    Proc.init.finished = false := by
  refine ⟨?_, ?_, rfl⟩
  · intro s inst before after ctx fd cb
    simp [psusan_continue, run_calls_finished, Call.isTerminated]
  · intro s calls ctx fd cb h0 hno
    have : calls.any Call.isTerminated = false := by
      rw [List.any_eq_false]
      intro c hc
      simp [hno c hc]
    simp [psusan_continue, run_calls_finished, this, h0]

/-- C5, witness: in a fresh process `psusan_continue` is true after a logged error and a
constructed instance, and false once the termination callback has run, also after a
further logged error. -/
theorem continue_false_after_termination_witness :
    psusan_continue 0 false false
      (run_calls [.server_conn_plug, .server_logging_error ⟨0, none⟩ "e".toList]
        ⟨Proc.init, ⟨env_tmp_x.conf0, ⟨none, true⟩, 0⟩⟩).proc = true ∧
    psusan_continue 0 true false
      (run_calls ([.server_conn_plug] ++ Call.server_instance_terminated ⟨0, none⟩ ::
          [.server_logging_error ⟨0, none⟩ "e".toList])
        ⟨Proc.init, ⟨env_tmp_x.conf0, ⟨none, true⟩, 0⟩⟩).proc = false :=
  ⟨continue_false_after_termination.2.1 _ _ 0 false false rfl (by decide),
   continue_false_after_termination.1 _ ⟨0, none⟩ [.server_conn_plug] _ 0 true false⟩

/-- C6: every operation of the authentication stub denies for every input:
`auth_methods` returns 0 (no method), `auth_none` false, `auth_password` 0 (rejected),
`auth_publickey` false, `auth_publickey_ssh1` and `auth_kbdint_prompts` and
`auth_ssh1int_challenge` NULL, `auth_kbdint_responses` the failure value -1,
`auth_ssh1int_response` false, and `auth_successful` returns false and changes nothing. -/
theorem auth_stub_denies (ap : AuthPolicy) (username password blob response : CStr)
    (new_password_opt : Option CStr) (rsa_modulus method : Nat) (responses : List CStr)
    (p : Proc) (s : Sys) :
    auth_methods ap = 0 ∧
    auth_none ap username = false ∧
    auth_password ap username password new_password_opt = 0 ∧
    auth_publickey ap username blob = false ∧
    auth_publickey_ssh1 ap username rsa_modulus = none ∧
    auth_kbdint_prompts ap username = none ∧
    auth_kbdint_responses ap responses = -1 ∧
    auth_kbdint_responses ap responses < 0 ∧
    auth_ssh1int_challenge ap method username = none ∧
    auth_ssh1int_response ap response = false ∧
    auth_successful ap username method p = (false, p) ∧
    (Call.auth_successful ap username method).exec s = s ∧
    Call.auth_query.exec s = s :=
  ⟨rfl, rfl, rfl, rfl, rfl, rfl, rfl, by simp [auth_kbdint_responses], rfl, rfl, rfl, rfl, rfl⟩

/-- C10: for every id and message, the text a log call appends to standard error is
exactly `#`, the id in decimal, `: `, the message and a newline when the id is not
`(unsigned)-1`, and exactly the message and a newline when it is; so a message logged
for an owning instance, that is for the instance `main` constructs, whose id is 0 and
not `(unsigned)-1`, is always prefixed with that instance's id. -/
theorem log_line_format (id : Nat) (msg : CStr) (p : Proc) :
    (id ≠ UINT_NEG1 →
      (log_to_stderr id msg p).err = p.err ++ ("#".toList ++ fmt_u id ++ ": ".toList ++ msg ++
        "\n".toList)) ∧
    (id = UINT_NEG1 → (log_to_stderr id msg p).err = p.err ++ (msg ++ "\n".toList)) ∧
    String.mk (fmt_u id) = toString id ∧
    (∀ inst : server_instance, inst.id = id → id ≠ UINT_NEG1 →
      (server_logging_error inst msg p).err =
        p.err ++ ("#".toList ++ fmt_u inst.id ++ ": ".toList ++ msg ++ "\n".toList) ∧
      (p.verbose = true → (server_eventlog inst msg p).err =
        p.err ++ ("#".toList ++ fmt_u inst.id ++ ": ".toList ++ msg ++ "\n".toList))) ∧
    (∀ (env : Env) (argv : List CStr) (scfg : server_config) (inst : server_instance),
      main env argv = .started scfg inst →
      inst.id ≠ UINT_NEG1 ∧
      (server_logging_error inst msg p).err =
        p.err ++ ("#".toList ++ fmt_u inst.id ++ ": ".toList ++ msg ++ "\n".toList) ∧
      (server_logging_error inst msg p).err = p.err ++ ("#0: ".toList ++ msg ++ "\n".toList) ∧
      (p.verbose = true → (server_eventlog inst msg p).err =
        p.err ++ ("#".toList ++ fmt_u inst.id ++ ": ".toList ++ msg ++ "\n".toList))) := by
  refine ⟨?_, ?_, rfl, ?_, ?_⟩
  · intro h
    simp [log_to_stderr_eq, log_text, h]
  · intro h
    simp [log_to_stderr_eq, log_text, h]
  · intro inst hid hne
    subst hid
    constructor
    · simp [server_logging_error, log_to_stderr_eq, log_text, hne]
    · intro hv
      simp [server_eventlog, hv, log_to_stderr_eq, log_text, hne]
  · intro env argv scfg inst hm
    have h0 : inst.id = 0 := (main_started_inv env argv scfg inst hm).2.1
    have hne : inst.id ≠ UINT_NEG1 := by rw [h0]; decide
    have hd : fmt_u 0 = ['0'] := by decide
    have hz : ¬ (0 = UINT_NEG1) := by decide
    refine ⟨hne, ?_, ?_, ?_⟩
    · simp [server_logging_error, log_to_stderr_eq, log_text, hne]
    · simp [server_logging_error, log_to_stderr_eq, log_text, h0, hd, hz]
    · intro hv
      simp [server_eventlog, hv, log_to_stderr_eq, log_text, hne]

/-- C10, witness: the error `disk full` of instance 7 is written as `#7: disk full`, and
the same error of the instance that `main` constructs on a command line without flags as
`#0: disk full`. -/
theorem log_line_format_witness :
    (server_logging_error ⟨7, some .server_logpolicy_vt⟩ "disk full".toList Proc.init).err =
      "#7: disk full\n".toList ∧
    main env_tmp_x ["psusan".toList] =
      .started ⟨env_tmp_x.conf0, ⟨some "/tmp/x".toList, true⟩, 1⟩
        ⟨0, some .server_logpolicy_vt⟩ ∧
    (server_logging_error ⟨0, some .server_logpolicy_vt⟩ "disk full".toList Proc.init).err =
      "#0: disk full\n".toList :=
  ⟨((log_line_format 7 "disk full".toList Proc.init).2.2.2.1 ⟨7, some .server_logpolicy_vt⟩ rfl
      (by decide)).1,
   main_of_spell env_tmp_x "psusan".toList [],
   ((log_line_format 0 "disk full".toList Proc.init).2.2.2.2 env_tmp_x ["psusan".toList] _ _
      (main_of_spell env_tmp_x "psusan".toList [])).2.2.1⟩

end Psusan
